import Mathlib

/-!
# Verification of the `LiveManager` audio-session core

Shallow embedding of `src/unnamed/part_003` (class `LiveManager` and the
`ConnectionState` declarations).  Mutable fields of the class become a record
`MState`; each method (or each distinct execution path of a method) becomes a
state-transforming function.  Audio sample data is modelled as `List ℚ`;
clock values (`AudioContext.currentTime`, `nextStartTime`) as `ℚ`.
The encoding helpers imported from `../utils/audioUtils` (not part of the
sources) are opaque to every claim below, so an outbound payload is modelled
by the sample data it carries.
-/

namespace LiveSpec

/-- `ConnectionState` enum (types section of `src/unnamed/part_003`). -/
inductive ConnState
  | DISCONNECTED
  | CONNECTING
  | CONNECTED
  | ERROR
deriving DecidableEq, Repr

/-- The mutable fields of `LiveManager`, plus ghost observation fields.

* `sessionActive`   — `sessionPromise !== null`
* `inputContext` / `outputContext` — `none` = field is `null`;
  `some true` = held and open, `some false` = held but already closed
* `scriptProcessor`, `inputSource` — field non-null
* `inputAnalyser` / `outputAnalyser` — identity of the held analyser node
* `closedContexts`  — ghost counter of `AudioContext.close()` calls issued
* `nextNodeId`      — ghost supply of fresh node identities
* `statusLog`       — ghost log of every value passed to `onStatusChange` -/
structure MState where
  sessionActive : Bool
  inputContext : Option Bool
  outputContext : Option Bool
  scriptProcessor : Bool
  inputSource : Bool
  inputAnalyser : Option Nat
  outputAnalyser : Option Nat
  isProcessingFile : Bool
  hasActiveMic : Bool
  nextStartTime : ℚ
  closedContexts : Nat
  nextNodeId : Nat
  statusLog : List ConnState
deriving DecidableEq, Repr

/-- A freshly constructed `LiveManager` (field initializers, lines 7–17). -/
def initialState : MState where
  sessionActive := false
  inputContext := none
  outputContext := none
  scriptProcessor := false
  inputSource := false
  inputAnalyser := none
  outputAnalyser := none
  isProcessingFile := false
  hasActiveMic := false
  nextStartTime := 0
  closedContexts := 0
  nextNodeId := 0
  statusLog := []

/-- The `scriptProcessor.onaudioprocess` callback (lines 56–73).
Returns the payload sent on the channel for the captured frame, or `none`
when the guard drops the frame:
`if (!this.sessionPromise || !this.inputContext || this.isProcessingFile) return;`.
Downsampling and blob encoding live in `audioUtils` (external to the claims),
so the payload is represented by the frame itself. -/
def onaudioprocess (s : MState) (frame : List ℚ) : Option (List ℚ) :=
  if !s.sessionActive || s.inputContext.isNone || s.isProcessingFile then
    none
  else
    some frame

/-- Number of `close()` calls `disconnect` issues for one context field:
`if (ctx && ctx.state !== 'closed') ctx.close();` (lines 324–330). -/
def closeCalls : Option Bool → Nat
  | some true => 1
  | _ => 0

/-- `disconnect()` (lines 305–339), in source order: reset the two flags,
close the session (observable only through `sessionActive` afterwards),
detach processor and source, close the still-open contexts, null every
handle, zero the playback cursor, notify `'DISCONNECTED'`. -/
def disconnect (s : MState) : MState :=
  let s₁ := { s with isProcessingFile := false, hasActiveMic := false }
  let s₂ := { s₁ with closedContexts :=
      s₁.closedContexts + closeCalls s₁.inputContext + closeCalls s₁.outputContext }
  { s₂ with
    sessionActive := false
    inputContext := none
    outputContext := none
    scriptProcessor := false
    inputSource := false
    nextStartTime := 0
    statusLog := s₂.statusLog ++ [ConnState.DISCONNECTED] }

/-- The successful execution of `connect()` (lines 28–116), with the outcome
of the `getUserMedia` acquisition passed in as `micGranted`: notify
`'CONNECTING'`, create fresh contexts and analysers, install the capture
pipeline when the mic was granted (the mic failure is swallowed, lines
79–83), then set `sessionPromise`.  Note that no prior resource is closed
and `isProcessingFile` is not touched. -/
def connect (micGranted : Bool) (s : MState) : MState :=
  let s₁ := { s with statusLog := s.statusLog ++ [ConnState.CONNECTING] }
  let s₂ := { s₁ with inputContext := some true, outputContext := some true }
  let s₃ := { s₂ with
      inputAnalyser := some s₂.nextNodeId
      outputAnalyser := some (s₂.nextNodeId + 1)
      nextNodeId := s₂.nextNodeId + 2 }
  if micGranted then
    { s₃ with inputSource := true, scriptProcessor := true,
              hasActiveMic := true, sessionActive := true }
  else
    { s₃ with hasActiveMic := false, sessionActive := true }

/-- The failing execution of `connect()`: setup runs until the remote
connect throws, then the `catch` (lines 118–124) runs
`this.disconnect(); this.onError(...); this.onStatusChange('ERROR')`. -/
def connectFail (s : MState) : MState :=
  let s₁ := { s with statusLog := s.statusLog ++ [ConnState.CONNECTING] }
  let s₂ := { s₁ with inputContext := some true, outputContext := some true }
  let s₃ := disconnect s₂
  { s₃ with statusLog := s₃.statusLog ++ [ConnState.ERROR] }

/-- The channel `onopen` callback (lines 89–92). -/
def onopen (s : MState) : MState :=
  { s with statusLog := s.statusLog ++ [ConnState.CONNECTED] }

/-- The channel `onclose` callback (lines 94–97). -/
def onclose (s : MState) : MState :=
  { s with statusLog := s.statusLog ++ [ConnState.DISCONNECTED] }

/-- The channel `onerror` callback (lines 98–102). -/
def onerror (s : MState) : MState :=
  { s with statusLog := s.statusLog ++ [ConnState.ERROR] }

/-- `getInputAnalyser()` (line 341). -/
def getInputAnalyser (s : MState) : Option Nat := s.inputAnalyser

/-- `getOutputAnalyser()` (line 342). -/
def getOutputAnalyser (s : MState) : Option Nat := s.outputAnalyser

/-- Start of an upload job: `this.isProcessingFile = true` (line 192). -/
def startUpload (s : MState) : MState := { s with isProcessingFile := true }

/-- End of an upload job: the `finally` block `this.isProcessingFile = false`
(line 250). -/
def endUpload (s : MState) : MState := { s with isProcessingFile := false }

/-- The reconnect performed inside `sendAudioFile`'s retry branch:
`this.disconnect(); await this.connect();` (lines 242–243), with the
mic granted again on the fresh connect. -/
def retryReconnect (s : MState) : MState := connect true (disconnect s)

/-! ## Playback scheduling (`handleMessage`, lines 141–179) -/

/-- Scheduling one decoded inbound chunk: `nextStartTime =
Math.max(nextStartTime, outputContext.currentTime)` (line 146), then
`source.start(nextStartTime); nextStartTime += audioBuffer.duration`
(lines 166–167).  Returns `(scheduled start, new cursor)`. -/
def scheduleChunk (nextStartTime currentTime duration : ℚ) : ℚ × ℚ :=
  let start := max nextStartTime currentTime
  (start, start + duration)

/-- The cursor value set by the interruption handler:
`this.nextStartTime = 0` (line 178). -/
def interruptedReset : ℚ := 0

/-! ## Peak normalization (`sendAudioFile`, lines 214–225) -/

/-- `maxVal`: `for (...) if (Math.abs(x) > maxVal) maxVal = Math.abs(x)`,
starting from `0` (lines 215–218). -/
def peakMax (data : List ℚ) : ℚ :=
  data.foldl (fun maxVal x => if |x| > maxVal then |x| else maxVal) 0

/-- The normalization step (lines 219–225): when `maxVal > 0` every sample
is multiplied in place by `scale = 0.95 / maxVal`; otherwise the buffer is
untouched. -/
def peakNormalize (data : List ℚ) : List ℚ :=
  if peakMax data > 0 then
    data.map (fun x => x * (95 / 100 / peakMax data))
  else
    data

/-! ## Streaming an upload (`streamAudioData`, lines 254–303)

The method's observable behaviour on the channel is the ordered list of
sends and pacing delays it performs: one `{ media: ... }` send per
`CHUNK_SIZE`-sample slice (each followed by the 50 ms `setTimeout` pause,
lines 284–295), then one `{ content: { parts: [{ text: ... }] } }` send
(lines 299–301).  The visualization branch (lines 267–282) touches no
channel and is not modelled. -/

inductive StreamEvent
  | mediaChunk (offset : Nat) (samples : List ℚ)
  | pause (ms : Nat)
  | textMsg (text : String)
deriving DecidableEq, Repr

/-- `const CHUNK_SIZE = 8192` (line 262). -/
def CHUNK_SIZE : Nat := 8192

/-- The loop `for (let i = 0; i < data.length; i += CHUNK_SIZE)`
(lines 284–295): at index `i` the slice `data.slice(i, i + CHUNK_SIZE)` is
sent and a 50 ms pause follows.  The remaining data stands for
`data.slice(i)`, and `i` is carried explicitly. -/
def chunkSends (data : List ℚ) (i : Nat) : List StreamEvent :=
  if _h : data = [] then
    []
  else
    StreamEvent.mediaChunk i (data.take CHUNK_SIZE) :: StreamEvent.pause 50 ::
      chunkSends (data.drop CHUNK_SIZE) (i + CHUNK_SIZE)
termination_by data.length
decreasing_by
  have hp : 0 < data.length := List.length_pos.mpr _h
  simp only [List.length_drop, CHUNK_SIZE]
  omega

/-- The trailing completion prompt (line 300). -/
def completionPrompt : String :=
  "I have finished playing. Generate a musical continuation now."

/-- `streamAudioData` (lines 254–303): all chunk sends from offset 0, then
the single trailing text send. -/
def streamAudioData (data : List ℚ) : List StreamEvent :=
  chunkSends data 0 ++ [StreamEvent.textMsg completionPrompt]

/-- The number of loop iterations on an `n`-sample buffer,
`⌈n / CHUNK_SIZE⌉` written with natural division. -/
def numChunks (n : Nat) : Nat := (n + (CHUNK_SIZE - 1)) / CHUNK_SIZE

def isMediaChunk : StreamEvent → Bool
  | .mediaChunk _ _ => true
  | _ => false

def isTextMsg : StreamEvent → Bool
  | .textMsg _ => true
  | _ => false

def offsetOf : StreamEvent → Option Nat
  | .mediaChunk off _ => some off
  | _ => none

/-! ## Helper lemmas about `chunkSends` -/

theorem numChunks_pos_step (n : Nat) (hn : 0 < n) :
    numChunks n = numChunks (n - CHUNK_SIZE) + 1 := by
  simp only [numChunks, CHUNK_SIZE]
  omega

theorem chunkSends_closed (n : Nat) :
    ∀ (data : List ℚ) (i : Nat), data.length = n →
      chunkSends data i =
        ((List.range (numChunks n)).map (fun j =>
          [StreamEvent.mediaChunk (i + j * CHUNK_SIZE)
             ((data.drop (j * CHUNK_SIZE)).take CHUNK_SIZE),
           StreamEvent.pause 50])).flatten := by
  induction n using Nat.strong_induction_on with
  | _ n ih =>
    intro data i hn
    by_cases h : data = []
    · subst h
      simp only [List.length_nil] at hn
      subst hn
      simp [chunkSends, numChunks, CHUNK_SIZE]
    · have hpos : 0 < n := hn ▸ List.length_pos.mpr h
      rw [chunkSends, dif_neg h]
      have hlen : (data.drop CHUNK_SIZE).length = n - CHUNK_SIZE := by
        simp [List.length_drop, hn]
      have hrec := ih (n - CHUNK_SIZE)
        (by simp only [CHUNK_SIZE]; omega)
        (data.drop CHUNK_SIZE) (i + CHUNK_SIZE) hlen
      rw [hrec, numChunks_pos_step n hpos, List.range_succ_eq_map]
      rw [List.map_cons, List.flatten_cons, List.map_map]
      have hfun : List.map
          ((fun j => [StreamEvent.mediaChunk (i + j * CHUNK_SIZE)
              ((data.drop (j * CHUNK_SIZE)).take CHUNK_SIZE),
            StreamEvent.pause 50]) ∘ Nat.succ)
          (List.range (numChunks (n - CHUNK_SIZE)))
          = List.map
          (fun j => [StreamEvent.mediaChunk (i + CHUNK_SIZE + j * CHUNK_SIZE)
              (((data.drop CHUNK_SIZE).drop (j * CHUNK_SIZE)).take CHUNK_SIZE),
            StreamEvent.pause 50])
          (List.range (numChunks (n - CHUNK_SIZE))) := by
        apply List.map_congr_left
        intro j hj
        simp only [Function.comp_apply, List.drop_drop]
        have h₁ : i + Nat.succ j * CHUNK_SIZE = i + CHUNK_SIZE + j * CHUNK_SIZE := by
          simp only [CHUNK_SIZE]
          omega
        have h₂ : Nat.succ j * CHUNK_SIZE = CHUNK_SIZE + j * CHUNK_SIZE := by
          simp only [CHUNK_SIZE]
          omega
        rw [h₁, h₂]
      rw [hfun]
      simp only [Nat.zero_mul, Nat.add_zero, List.drop_zero, List.cons_append,
        List.nil_append]

theorem countP_flatten_list {α : Type} (p : α → Bool) (L : List (List α)) :
    (L.flatten).countP p = (L.map (fun l => l.countP p)).sum := by
  induction L with
  | nil => simp
  | cons a L ih => simp [List.countP_append, ih]

theorem filterMap_flatten_list {α β : Type} (f : α → Option β) (L : List (List α)) :
    (L.flatten).filterMap f = (L.map (fun l => l.filterMap f)).flatten := by
  induction L with
  | nil => simp
  | cons a L ih => simp [List.filterMap_append, ih]

theorem flatten_map_singleton {α β : Type} (g : α → β) (l : List α) :
    (l.map (fun a => [g a])).flatten = l.map g := by
  induction l with
  | nil => simp
  | cons a l ih => simp [ih]

theorem sum_map_one {α : Type} (l : List α) :
    (l.map (fun _ => (1 : Nat))).sum = l.length := by
  induction l with
  | nil => simp
  | cons a l ih =>
    simp [ih]
    omega

/-! ## Upload retry protocol (`sendAudioFile`, lines 233–252) -/

/-- `startsList pat l`: `l` begins with `pat` (character-wise). -/
def startsList : List Char → List Char → Bool
  | [], _ => true
  | _ :: _, [] => false
  | p :: ps, c :: cs => p == c && startsList ps cs

def includesAux (pat : List Char) : List Char → Bool
  | [] => startsList pat []
  | c :: cs => startsList pat (c :: cs) || includesAux pat cs

/-- JS `String.prototype.includes`: `pat` occurs as a contiguous substring
of `s`. -/
def includesText (s pat : String) : Bool := includesAux pat.toList s.toList

/-- The transient-failure classification of the retry branch (line 240):
`e.message?.includes('unavailable') || ...('timeout') || ...('closed') ||
...('Session not active')`. -/
def isTransientFailure (msg : String) : Bool :=
  includesText msg "unavailable" || includesText msg "timeout" ||
    includesText msg "closed" || includesText msg "Session not active"

/-- One observable step of `sendAudioFile`'s streaming phase. -/
inductive JobAction
  | streamRun (buf : List ℚ)
  | reconnectSession
deriving DecidableEq, Repr

/-- The streaming phase of `sendAudioFile` (lines 233–252): the ordered
actions performed, the error propagated to the caller (if any), and the
value of `isProcessingFile` after the `finally` block.  The outcomes of
the first streaming attempt, of the reconnect, and of the retried
streaming attempt are injected as `att1`, `rc`, `att2`
(`none` = success, `some msg` = failure carrying message `msg`). -/
def sendAudioFileStream (buf : List ℚ) (att1 rc att2 : Option String) :
    List JobAction × Option String × Bool :=
  match att1 with
  | none => ([JobAction.streamRun buf], none, false)
  | some msg =>
    if isTransientFailure msg then
      match rc with
      | some cerr =>
        ([JobAction.streamRun buf, JobAction.reconnectSession], some cerr, false)
      | none =>
        ([JobAction.streamRun buf, JobAction.reconnectSession,
          JobAction.streamRun buf], att2, false)
    else
      ([JobAction.streamRun buf], some msg, false)

/-! ## Helper lemmas about `peakMax` -/

theorem peak_step (m x : ℚ) : (if |x| > m then |x| else m) = max m |x| := by
  rcases le_or_lt |x| m with h | h
  · rw [if_neg (not_lt.mpr h), max_eq_left h]
  · rw [if_pos h, max_eq_right h.le]

theorem peakMax_eq_foldl_max (l : List ℚ) :
    peakMax l = l.foldl (fun m x => max m |x|) 0 := by
  simp only [peakMax, peak_step]

theorem foldl_max_init_le (l : List ℚ) (a : ℚ) :
    a ≤ l.foldl (fun m x => max m |x|) a := by
  induction l generalizing a with
  | nil => simp
  | cons y ys ih => exact le_trans (le_max_left a |y|) (ih _)

theorem le_foldl_max_of_mem {x : ℚ} {l : List ℚ} (hx : x ∈ l) (a : ℚ) :
    |x| ≤ l.foldl (fun m x => max m |x|) a := by
  induction l generalizing a with
  | nil => cases hx
  | cons y ys ih =>
    rcases List.mem_cons.mp hx with rfl | h
    · exact le_trans (le_max_right a |x|) (foldl_max_init_le ys _)
    · exact ih h _

/-! ## Claim theorems -/

/-- C1: every microphone capture frame delivered to the script-processor
callback while `isProcessingFile` is `true` is dropped — no send is issued
on the channel for that frame. -/
theorem onaudioprocess_dropped_during_upload (s : MState) (frame : List ℚ)
    (h : s.isProcessingFile = true) :
    onaudioprocess s frame = none := by
  simp [onaudioprocess, h]

theorem onaudioprocess_dropped_during_upload_witness :
    (startUpload (connect true initialState)).isProcessingFile = true ∧
      onaudioprocess (startUpload (connect true initialState)) [1, 0] = none :=
  ⟨rfl, onaudioprocess_dropped_during_upload _ [1, 0] rfl⟩

/-- C3: scheduling two decoded inbound chunks in a row with no interruption
between them: the first chunk's start is `max cursor currentTime`, the
cursor then advances by exactly the first chunk's duration, and the second
chunk's scheduled start is at least the first chunk's start plus the first
chunk's duration. -/
theorem playback_gapless_schedule (c t₁ d₁ t₂ d₂ : ℚ) :
    (scheduleChunk c t₁ d₁).1 = max c t₁ ∧
    (scheduleChunk c t₁ d₁).2 = (scheduleChunk c t₁ d₁).1 + d₁ ∧
    (scheduleChunk (scheduleChunk c t₁ d₁).2 t₂ d₂).1 =
      max (scheduleChunk c t₁ d₁).2 t₂ ∧
    (scheduleChunk c t₁ d₁).1 + d₁ ≤
      (scheduleChunk (scheduleChunk c t₁ d₁).2 t₂ d₂).1 := by
  refine ⟨rfl, rfl, rfl, ?_⟩
  exact le_max_left _ _

theorem playback_gapless_schedule_witness :
    (scheduleChunk 0 1 2).1 + 2 ≤
      (scheduleChunk (scheduleChunk 0 1 2).2 1 5).1 :=
  (playback_gapless_schedule 0 1 2 1 5).2.2.2

/-- C8: a chunk dispatched after an `interrupted` signal (cursor reset to 0,
line 178) and before any further chunk is scheduled starts no later than the
device's current time at dispatch, provided the device clock is
non-negative. -/
theorem interrupted_reset_schedule (t d : ℚ) (ht : 0 ≤ t) :
    (scheduleChunk interruptedReset t d).1 ≤ t := by
  simp [scheduleChunk, interruptedReset, ht]

theorem interrupted_reset_schedule_witness :
    (0:ℚ) ≤ 7/2 ∧ (scheduleChunk interruptedReset (7/2) 1).1 ≤ 7/2 :=
  ⟨by norm_num, interrupted_reset_schedule (7/2) 1 (by norm_num)⟩

/-- C6: peak normalization.  `peakMax` really is an upper bound of the
absolute samples and is non-negative; when it is positive every sample is
multiplied by `0.95 / peakMax`, and a silent buffer (`peakMax = 0`) is left
unchanged — no division by zero occurs. -/
theorem peak_normalization_spec (l : List ℚ) :
    0 ≤ peakMax l ∧
    (∀ x ∈ l, |x| ≤ peakMax l) ∧
    (peakMax l > 0 →
      peakNormalize l = l.map (fun x => x * (95 / 100 / peakMax l))) ∧
    (peakMax l = 0 → peakNormalize l = l) := by
  refine ⟨?_, ?_, ?_, ?_⟩
  · rw [peakMax_eq_foldl_max]; exact foldl_max_init_le l 0
  · intro x hx
    rw [peakMax_eq_foldl_max]
    exact le_foldl_max_of_mem hx 0
  · intro h
    rw [peakNormalize, if_pos h]
  · intro h
    rw [peakNormalize, if_neg (by rw [h]; exact lt_irrefl 0)]

theorem peak_normalization_spec_witness :
    peakMax [(1:ℚ)] > 0 ∧
      peakNormalize [(1:ℚ)] = [19/20] ∧
      peakMax ([] : List ℚ) = 0 ∧
      peakNormalize ([] : List ℚ) = [] := by
  have h₁ : peakMax [(1:ℚ)] > 0 := by norm_num [peakMax]
  have h₂ := (peak_normalization_spec [(1:ℚ)]).2.2.1 h₁
  have h₃ := (peak_normalization_spec ([] : List ℚ)).2.2.2 (by norm_num [peakMax])
  refine ⟨h₁, ?_, by norm_num [peakMax], h₃⟩
  rw [h₂]
  norm_num [peakMax]

/-- C5: for a non-empty decoded/resampled upload buffer of `n` samples,
`streamAudioData` performs exactly `⌈n / 8192⌉` media-chunk sends, in
sequence-offset order `0, 8192, 2·8192, …`, each followed by the 50 ms
pacing pause (so consecutive chunk sends are at least 50 ms apart), and
then exactly one trailing text send whose text is literally the
completion prompt. -/
theorem streamAudioData_chunks_and_prompt (data : List ℚ) (h : data ≠ []) :
    streamAudioData data =
      ((List.range (numChunks data.length)).map (fun j =>
        [StreamEvent.mediaChunk (j * CHUNK_SIZE)
           ((data.drop (j * CHUNK_SIZE)).take CHUNK_SIZE),
         StreamEvent.pause 50])).flatten ++
        [StreamEvent.textMsg completionPrompt] ∧
    (streamAudioData data).countP isMediaChunk = numChunks data.length ∧
    (streamAudioData data).filterMap offsetOf =
      (List.range (numChunks data.length)).map (fun j => j * CHUNK_SIZE) ∧
    (streamAudioData data).countP isTextMsg = 1 ∧
    numChunks data.length = (data.length + (CHUNK_SIZE - 1)) / CHUNK_SIZE ∧
    0 < numChunks data.length := by
  have hc := chunkSends_closed data.length data 0 rfl
  simp only [Nat.zero_add] at hc
  refine ⟨?_, ?_, ?_, ?_, rfl, ?_⟩
  · rw [streamAudioData, hc]
  · rw [streamAudioData, hc, List.countP_append, countP_flatten_list, List.map_map]
    have hone : ((fun l => List.countP isMediaChunk l) ∘ (fun j =>
        [StreamEvent.mediaChunk (j * CHUNK_SIZE)
           ((data.drop (j * CHUNK_SIZE)).take CHUNK_SIZE),
         StreamEvent.pause 50])) = fun _ => (1 : Nat) := by
      funext j
      simp [List.countP_cons, isMediaChunk]
    rw [hone, sum_map_one, List.length_range]
    simp [List.countP_cons, isMediaChunk]
  · rw [streamAudioData, hc, List.filterMap_append, filterMap_flatten_list,
      List.map_map]
    have hoff : ((fun l => List.filterMap offsetOf l) ∘ (fun j =>
        [StreamEvent.mediaChunk (j * CHUNK_SIZE)
           ((data.drop (j * CHUNK_SIZE)).take CHUNK_SIZE),
         StreamEvent.pause 50])) = fun j => [j * CHUNK_SIZE] := by
      funext j
      simp [List.filterMap_cons, offsetOf]
    rw [hoff, flatten_map_singleton]
    simp [List.filterMap_cons, offsetOf]
  · rw [streamAudioData, hc, List.countP_append, countP_flatten_list, List.map_map]
    have hzero : ((fun l => List.countP isTextMsg l) ∘ (fun j =>
        [StreamEvent.mediaChunk (j * CHUNK_SIZE)
           ((data.drop (j * CHUNK_SIZE)).take CHUNK_SIZE),
         StreamEvent.pause 50])) = fun _ => (0 : Nat) := by
      funext j
      simp [List.countP_cons, isTextMsg]
    rw [hzero]
    simp [List.countP_cons, isTextMsg]
  · have hp : 0 < data.length := List.length_pos.mpr h
    simp only [numChunks, CHUNK_SIZE]
    omega

theorem streamAudioData_chunks_and_prompt_witness :
    ([(1:ℚ)] ≠ []) ∧
      (streamAudioData [(1:ℚ)]).countP isMediaChunk = 1 ∧
      (streamAudioData [(1:ℚ)]).countP isTextMsg = 1 := by
  have h : ([(1:ℚ)] ≠ []) := by simp
  have hthm := streamAudioData_chunks_and_prompt [(1:ℚ)] h
  refine ⟨h, ?_, hthm.2.2.2.1⟩
  have hcount := hthm.2.1
  simpa [numChunks, CHUNK_SIZE] using hcount

/-- C10: after `disconnect()` the session promise, both contexts, the script
processor and the input source are null and the playback cursor is 0, yet
the analyser fields keep the torn-down session's nodes: the getters still
return them rather than null. -/
theorem disconnect_fields_and_analysers (s : MState) (a b : Nat)
    (ha : s.inputAnalyser = some a) (hb : s.outputAnalyser = some b) :
    (disconnect s).sessionActive = false ∧
    (disconnect s).inputContext = none ∧
    (disconnect s).outputContext = none ∧
    (disconnect s).scriptProcessor = false ∧
    (disconnect s).inputSource = false ∧
    (disconnect s).nextStartTime = 0 ∧
    getInputAnalyser (disconnect s) = some a ∧
    getOutputAnalyser (disconnect s) = some b := by
  simp [disconnect, getInputAnalyser, getOutputAnalyser, ha, hb]

theorem disconnect_fields_and_analysers_witness :
    (connect true initialState).inputAnalyser = some 0 ∧
      getInputAnalyser (disconnect (connect true initialState)) = some 0 ∧
      getOutputAnalyser (disconnect (connect true initialState)) = some 1 := by
  have h := disconnect_fields_and_analysers (connect true initialState) 0 1 rfl rfl
  exact ⟨rfl, h.2.2.2.2.2.2.1, h.2.2.2.2.2.2.2⟩

/-- C2: when the first streaming attempt of an upload job fails with a
message classified transient, `sendAudioFile` performs exactly one
reconnect followed by exactly one re-run of streaming with the same
normalized buffer; the retry's outcome — success or failure — propagates
to the caller with no further retry, and `isProcessingFile` is `false`
after the job ends on both the success and the failure path. -/
theorem sendAudioFile_transient_retry (buf : List ℚ) (msg : String)
    (att2 : Option String) (h : isTransientFailure msg = true) :
    (sendAudioFileStream buf (some msg) none att2).1 =
      [JobAction.streamRun buf, JobAction.reconnectSession,
       JobAction.streamRun buf] ∧
    (sendAudioFileStream buf (some msg) none att2).2.1 = att2 ∧
    (sendAudioFileStream buf (some msg) none att2).2.2 = false ∧
    (sendAudioFileStream buf none none att2).2.2 = false := by
  simp [sendAudioFileStream, h]

theorem sendAudioFile_transient_retry_witness :
    isTransientFailure "connection timeout" = true ∧
      (sendAudioFileStream [1] (some "connection timeout") none
        (some "channel closed")).1 =
        [JobAction.streamRun [1], JobAction.reconnectSession,
         JobAction.streamRun [1]] ∧
      (sendAudioFileStream [1] (some "connection timeout") none
        (some "channel closed")).2.1 = some "channel closed" := by
  have h : isTransientFailure "connection timeout" = true := by decide
  have ht := sendAudioFile_transient_retry [1] "connection timeout"
    (some "channel closed") h
  exact ⟨h, ht.1, ht.2.1⟩

/-- C4 (counterexample): `connect()` called while a prior session exists —
`connect true initialState` holds an active session and two open contexts —
does not tear that session down: a full teardown would issue two
`AudioContext.close()` calls, yet after the second `connect` the
`closedContexts` counter is unchanged at 0 while the new session's
resources have been created. -/
theorem connect_no_teardown_counterexample :
    (connect true initialState).sessionActive = true ∧
    (connect true initialState).inputContext = some true ∧
    (connect true initialState).outputContext = some true ∧
    (connect true initialState).closedContexts = 0 ∧
    (connect true (connect true initialState)).closedContexts = 0 ∧
    (connect true (connect true initialState)).sessionActive = true := by
  refine ⟨rfl, rfl, rfl, rfl, rfl, rfl⟩

/-- C4 (amended): `connect()` itself closes no prior native audio resource —
it overwrites the old fields while creating the new session's resources;
the prior session's open contexts are closed only when a caller runs
`disconnect()` before `connect()`, as the upload retry path does, in which
case both closes are issued before the new session's resources exist. -/
theorem connect_teardown_amended (s : MState) (m : Bool)
    (hin : s.inputContext = some true) (hout : s.outputContext = some true) :
    (connect m s).closedContexts = s.closedContexts ∧
    (connect m s).sessionActive = true ∧
    (connect m s).inputContext = some true ∧
    (connect m s).outputContext = some true ∧
    (disconnect s).closedContexts = s.closedContexts + 2 ∧
    (connect m (disconnect s)).closedContexts = s.closedContexts + 2 := by
  cases m <;> simp [connect, disconnect, closeCalls, hin, hout]

theorem connect_teardown_amended_witness :
    (connect true initialState).inputContext = some true ∧
      (disconnect (connect true initialState)).closedContexts =
        (connect true initialState).closedContexts + 2 := by
  have h := connect_teardown_amended (connect true initialState) true rfl rfl
  exact ⟨h.2.2.1, h.2.2.2.2.1⟩

/-- C7 (counterexample): the upload job's mute does not cover the
reconnect-and-retry window, and the flag is not mutated only by the job's
start and end.  Starting an upload on a live session sets the flag; the
retry path's `disconnect()` (not a job start/end) clears it, and after the
retry's reconnect a microphone frame arriving during the retried streaming
is forwarded on the channel. -/
theorem upload_mic_mute_counterexample :
    (startUpload (connect true initialState)).isProcessingFile = true ∧
    (disconnect (startUpload (connect true initialState))).isProcessingFile
      = false ∧
    onaudioprocess (retryReconnect (startUpload (connect true initialState)))
      [1] = some [1] := by
  refine ⟨rfl, rfl, rfl⟩

/-- C7 (amended): no microphone frame is forwarded while
`isProcessingFile` is `true`; the flag is set by the job's start and
cleared by its end, but `disconnect()` also clears it, and the retry
path's disconnect-and-reconnect leaves it `false` — so a mic frame
arriving during the reconnect-and-retry window is forwarded on the fresh
channel. -/
theorem upload_mic_mute_amended (s : MState) (frame : List ℚ) :
    (s.isProcessingFile = true → onaudioprocess s frame = none) ∧
    (startUpload s).isProcessingFile = true ∧
    (endUpload s).isProcessingFile = false ∧
    (disconnect s).isProcessingFile = false ∧
    (retryReconnect s).isProcessingFile = false ∧
    onaudioprocess (retryReconnect s) frame = some frame := by
  refine ⟨?_, rfl, rfl, rfl, rfl, rfl⟩
  intro h
  simp [onaudioprocess, h]

theorem upload_mic_mute_amended_witness :
    onaudioprocess (startUpload (connect true initialState)) [2] = none ∧
      onaudioprocess (retryReconnect (startUpload (connect true initialState)))
        [2] = some [2] :=
  ⟨(upload_mic_mute_amended (startUpload (connect true initialState)) [2]).1 rfl,
   (upload_mic_mute_amended (startUpload (connect true initialState))
     [2]).2.2.2.2.2⟩

/-- The spec's claimed strict `ConnectionState` transition relation, stated
from the spec's words for comparison with the code's emissions:
DISCONNECTED→CONNECTING on connect (also ERROR→CONNECTING, the fresh
connect being the only way out of ERROR), CONNECTING→CONNECTED on channel
open, CONNECTING|CONNECTED→ERROR on failure, any→DISCONNECTED on close or
disconnect.  In particular DISCONNECTED→ERROR is not allowed. -/
def specStatusTransition : ConnState → ConnState → Bool
  | ConnState.DISCONNECTED, ConnState.CONNECTING => true
  | ConnState.ERROR, ConnState.CONNECTING => true
  | ConnState.CONNECTING, ConnState.CONNECTED => true
  | ConnState.CONNECTING, ConnState.ERROR => true
  | ConnState.CONNECTED, ConnState.ERROR => true
  | _, ConnState.DISCONNECTED => true
  | _, _ => false

/-- Every adjacent pair of a notification sequence is allowed by
`specStatusTransition`. -/
def chainAllowed : List ConnState → Bool
  | [] => true
  | [_] => true
  | a :: b :: rest => specStatusTransition a b && chainAllowed (b :: rest)

/-- C9 (counterexample): a failed `connect()` notifies `CONNECTING`, then
`DISCONNECTED` (emitted by the teardown inside the catch block), then
`ERROR` — so the observer sees `ERROR` entered from `DISCONNECTED`, a
transition the claimed strict relation forbids. -/
theorem status_transition_counterexample :
    (connectFail initialState).statusLog =
      [ConnState.CONNECTING, ConnState.DISCONNECTED, ConnState.ERROR] ∧
    specStatusTransition ConnState.DISCONNECTED ConnState.ERROR = false ∧
    chainAllowed (connectFail initialState).statusLog = false := by
  refine ⟨rfl, rfl, ?_⟩
  decide

/-- C9 (amended): each status notification matches its trigger — `connect`
emits `CONNECTING`, channel open `CONNECTED`, channel close and
`disconnect()` `DISCONNECTED`, channel error `ERROR` — but a failed
`connect` emits the sequence `CONNECTING`, `DISCONNECTED`, `ERROR`, so
`ERROR` is entered from `DISCONNECTED` on the connect-failure path,
contrary to the claimed strict relation. -/
theorem status_emission_amended (s : MState) (m : Bool) :
    (connect m s).statusLog = s.statusLog ++ [ConnState.CONNECTING] ∧
    (onopen s).statusLog = s.statusLog ++ [ConnState.CONNECTED] ∧
    (onclose s).statusLog = s.statusLog ++ [ConnState.DISCONNECTED] ∧
    (onerror s).statusLog = s.statusLog ++ [ConnState.ERROR] ∧
    (disconnect s).statusLog = s.statusLog ++ [ConnState.DISCONNECTED] ∧
    (connectFail s).statusLog = s.statusLog ++
      [ConnState.CONNECTING, ConnState.DISCONNECTED, ConnState.ERROR] := by
  cases m <;>
    simp [connect, onopen, onclose, onerror, disconnect, connectFail]

end LiveSpec
